import Mathlib

/-!
Shallow embedding of the board storage layer (`src/board/storage.ts` together
with the current `src/board/types.ts` schema) of the clawdev repository.

Persistence is modelled by an explicit `Workspace` state: the optional board
file and the optional tickets directory (an association list from file name to
file content).  YAML encode/decode round trips on well-formed records, so a
stored record is kept as the record itself; a file that fails to parse (or
parses to `null`) is `TicketFile.corrupt`.  Decoded YAML objects are
`RawTicket`s: every field optional (`none` = property absent), covering both
the current schema fields and the old-schema fields that `migrateTicket`
removes.  JavaScript truthiness on strings (empty string is falsy) is modelled
by `strTruthy`.  Timestamps (`now()`) are passed in as an explicit argument.
-/

namespace Clawdev

/-- Comment entry on a ticket (author, text, creation time). -/
structure Comment where
  author : String
  text : String
  createdAt : Option String
deriving DecidableEq, Repr

/-- Derived code location: branch plus worktree path. -/
structure CodeLocation where
  branch : String
  worktree : String
deriving DecidableEq, Repr

/-- Ticket creator identity (`Assignee` in types.ts). -/
structure Assignee where
  type : String
  id : String
  name : String
deriving DecidableEq, Repr

/-- Raw decoded ticket record: every field optional, `none` meaning the
property is absent.  Includes the old-schema fields handled by migration. -/
structure RawTicket where
  id : Option String := none
  title : Option String := none
  type : Option String := none
  status : Option String := none
  priority : Option String := none
  intent : Option String := none
  acceptanceSignal : Option String := none
  comments : Option (List Comment) := none
  codeLocation : Option CodeLocation := none
  createdAt : Option String := none
  updatedAt : Option String := none
  createdBy : Option Assignee := none
  statusChangedAt : Option String := none
  completedAt : Option String := none
  description : Option String := none
  acceptanceCriteria : Option (List String) := none
  progressNotes : Option (List String) := none
  rejectionCount : Option Nat := none
  researchNotes : Option String := none
  estimate : Option String := none
  parentId : Option String := none
  labels : Option (List String) := none
  tags : Option (List String) := none
  blockedBy : Option (List String) := none
  assignee : Option String := none
  staleAt : Option String := none
deriving DecidableEq, Repr

/-- Board column (`BoardColumn` in types.ts): `wipLimit` is
`number | null`; `none` models `null`. -/
structure BoardColumn where
  id : String
  name : String
  wipLimit : Option Int := none
deriving DecidableEq, Repr

/-- Board settings (`BoardSettings` in types.ts).  The field for the
`ticketPrefix` key is called `ticketPref` here. -/
structure BoardSettings where
  defaultPriority : String := "medium"
  defaultType : String := "feature"
  autoAssign : Bool := false
  staleThresholdDays : Nat := 7
  ticketPref : String := "TICKET"
  nextTicketNumber : Nat := 1
  staleInProgressHours : Nat := 48
deriving DecidableEq, Repr

/-- Board record (`Board` in types.ts). -/
structure Board where
  id : String
  name : String
  projectId : String
  projectName : String
  description : Option String := none
  columns : List BoardColumn
  settings : BoardSettings
  createdAt : String
  updatedAt : String
deriving DecidableEq, Repr

/-- Content of a stored ticket file: either a decoded record, or a file whose
YAML fails to parse / parses to `null` (`parseYamlSafe` fallback). -/
inductive TicketFile where
  | corrupt : TicketFile
  | record : RawTicket → TicketFile
deriving DecidableEq, Repr

/-- Content of the stored board file. -/
inductive BoardFile where
  | corrupt : BoardFile
  | record : Board → BoardFile
deriving DecidableEq, Repr

/-- Workspace state: the board file (absent / corrupt / record) and the
tickets directory (absent, or an association list file name to content in
directory-enumeration order). -/
structure Workspace where
  boardFile : Option BoardFile := none
  ticketsDir : Option (List (String × TicketFile)) := none
deriving DecidableEq, Repr

/-- JavaScript truthiness of an optional string: present and nonempty. -/
def strTruthy : Option String → Bool
  | some s => s ≠ ""
  | none => false

/-- Default board columns (`DEFAULT_BOARD_COLUMNS` in types.ts). -/
def DEFAULT_BOARD_COLUMNS : List BoardColumn :=
  [ { id := "backlog", name := "Backlog", wipLimit := none },
    { id := "ready", name := "Ready", wipLimit := some 10 },
    { id := "in-progress", name := "In Progress", wipLimit := some 2 },
    { id := "review", name := "Review", wipLimit := some 5 },
    { id := "done", name := "Done", wipLimit := none } ]

/-- Default board settings (`DEFAULT_BOARD_SETTINGS` in types.ts). -/
def DEFAULT_BOARD_SETTINGS : BoardSettings := {}

/-- Valid ticket statuses (`VALID_STATUSES` in types.ts). -/
def VALID_STATUSES : List String :=
  ["backlog", "ready", "in-progress", "review", "done"]

/-- Column ids of the default board configuration. -/
def defaultColumnIds : List String := DEFAULT_BOARD_COLUMNS.map (fun c => c.id)

/-- Uppercase every character (JavaScript `toUpperCase` on the ASCII data in
play), written over the character list so that it reduces in the kernel. -/
def strUpper (s : String) : String := String.mk (s.data.map Char.toUpper)

/-- Lowercase every character (JavaScript `toLowerCase` on the ASCII data in
play), written over the character list so that it reduces in the kernel. -/
def strLower (s : String) : String := String.mk (s.data.map Char.toLower)

/-- String suffix test (`endsWith`), written over the character lists so that
it reduces in the kernel. -/
def strEndsWith (s pat : String) : Bool := pat.data.isSuffixOf s.data

/-- JavaScript `array.join("\n")`. -/
def joinLines : List String → String
  | [] => ""
  | [x] => x
  | x :: xs => x ++ "\n" ++ joinLines xs

/-- Character sanitization step of `sanitizeId`: anything outside
`[a-zA-Z0-9_-]` becomes an underscore. -/
def sanitizeChar (c : Char) : Char :=
  if c.isAlphanum ∨ c = '_' ∨ c = '-' then c else '_'

/-- `sanitizeId`: replace disallowed characters, then uppercase. -/
def sanitizeId (id : String) : String :=
  strUpper (String.mk (id.data.map sanitizeChar))

/-- File name (within the tickets directory) used for a ticket id
(`ticketPath` without the directory part). -/
def ticketFileName (ticketId : String) : String :=
  sanitizeId ticketId ++ ".yaml"

/-- Characters kept by `slugify` after lowercasing: `[a-z0-9]`. -/
def slugKeep (c : Char) : Bool := c.isLower || c.isDigit

/-- Collapse every maximal run of non-kept characters into a single hyphen
(the `replace(/[^a-z0-9]+/g, "-")` step); the flag records whether the
previous emitted character was the hyphen for the current run. -/
def collapseRuns : List Char → Bool → List Char
  | [], _ => []
  | c :: rest, prevHyphen =>
    if slugKeep c then c :: collapseRuns rest false
    else if prevHyphen then collapseRuns rest true
    else '-' :: collapseRuns rest true

/-- Strip one leading and one trailing hyphen
(the `replace(/^-|-$/g, "")` step, on a run-collapsed string). -/
def stripEdgeHyphens (l : List Char) : List Char :=
  let l1 := match l with
    | '-' :: rest => rest
    | other => other
  match l1.reverse with
  | '-' :: rest => rest.reverse
  | _ => l1

/-- `slugify`: lowercase, collapse non-alphanumeric runs to single hyphens,
strip edge hyphens, truncate to 40 characters. -/
def slugify (title : String) : String :=
  String.mk ((stripEdgeHyphens (collapseRuns (strLower title).data false)).take 40)

/-- `deriveCodeLocation`: deterministic branch / worktree from id and title. -/
def deriveCodeLocation (ticketId title : String) : CodeLocation :=
  { branch := "story/" ++ strLower ticketId ++ "-" ++ slugify title,
    worktree := "../wt-" ++ strLower ticketId ++ "-" ++ slugify title }

/-- `TYPE_MIGRATION` table: old ticket type vocabulary to the current one. -/
def TYPE_MIGRATION : String → Option String
  | "epic" => some "feature"
  | "story" => some "feature"
  | "task" => some "chore"
  | "bug" => some "bugfix"
  | "idea" => some "experiment"
  | "research" => some "experiment"
  | _ => none

/-- Type step of `migrateTicket`: remap when the old type is truthy and in the
table (the table maps no key to an empty string, so the truthiness test on the
looked-up value is the `isSome` test). -/
def migrateType (ty : Option String) : Option String :=
  match ty.bind TYPE_MIGRATION with
  | some m => some m
  | none => ty

/-- Status step of `migrateTicket`: `"blocked"` becomes `"backlog"`. -/
def migrateStatus (st : Option String) : Option String :=
  if st = some "blocked" then some "backlog" else st

/-- Intent step of `migrateTicket`: copy `description` into `intent` when the
former is truthy and the latter falsy. -/
def migrateIntent (descr intent : Option String) : Option String :=
  if strTruthy descr ∧ ¬ strTruthy intent then descr else intent

/-- Acceptance step of `migrateTicket`: join a nonempty `acceptanceCriteria`
array into `acceptanceSignal` when the latter is falsy. -/
def migrateSignal (ac : Option (List String)) (sig : Option String) : Option String :=
  match ac with
  | some l => if l ≠ [] ∧ ¬ strTruthy sig then some (joinLines l) else sig
  | none => sig

/-- Comments step of `migrateTicket`: synthesize system comments from a
nonempty `progressNotes` array when no comments exist yet; each synthesized
comment is stamped `updatedAt ?? createdAt`. -/
def migrateComments (pn : Option (List String)) (comments : Option (List Comment))
    (updatedAt createdAt : Option String) : Option (List Comment) :=
  match pn with
  | some l =>
    if l ≠ [] ∧ (comments = none ∨ comments = some []) then
      some (l.map fun text =>
        { author := "system", text := text, createdAt := updatedAt <|> createdAt })
    else comments
  | none => comments

/-- `migrateTicket`: lazily normalize a raw record to the current schema and
delete the removed fields. -/
def migrateTicket (r : RawTicket) : RawTicket :=
  { r with
    type := migrateType r.type,
    status := migrateStatus r.status,
    intent := migrateIntent r.description r.intent,
    acceptanceSignal := migrateSignal r.acceptanceCriteria r.acceptanceSignal,
    comments := migrateComments r.progressNotes r.comments r.updatedAt r.createdAt,
    description := none,
    acceptanceCriteria := none,
    progressNotes := none,
    rejectionCount := none,
    researchNotes := none,
    estimate := none,
    parentId := none,
    labels := none,
    tags := none,
    blockedBy := none,
    assignee := none,
    staleAt := none }

/-- Look a file up in a directory listing by name. -/
def fsLookup : List (String × TicketFile) → String → Option TicketFile
  | [], _ => none
  | (n, c) :: rest, name => if n = name then some c else fsLookup rest name

/-- Write a file: replace in place when the name exists, else append. -/
def fsWrite : List (String × TicketFile) → String → TicketFile → List (String × TicketFile)
  | [], name, c => [(name, c)]
  | (n, c0) :: rest, name, c =>
    if n = name then (name, c) :: rest else (n, c0) :: fsWrite rest name c

/-- Unlink a file by name. -/
def fsDelete : List (String × TicketFile) → String → List (String × TicketFile)
  | [], _ => []
  | (n, c0) :: rest, name => if n = name then rest else (n, c0) :: fsDelete rest name

/-- `ensureBoardDir`: create the board and tickets directories when absent. -/
def ensureBoardDir (ws : Workspace) : Workspace :=
  { ws with ticketsDir := some (ws.ticketsDir.getD []) }

/-- `loadBoard`: `null` when the board file is absent or fails to parse. -/
def loadBoard (ws : Workspace) : Option Board :=
  match ws.boardFile with
  | some (.record b) => some b
  | _ => none

/-- `saveBoard`: ensure the directories, then write the board file. -/
def saveBoard (ws : Workspace) (b : Board) : Workspace :=
  { ensureBoardDir ws with boardFile := some (.record b) }

/-- `initBoard`: return the existing board, or create and persist a fresh one
with the default columns and settings and a prefix cut from the project id. -/
def initBoard (ws : Workspace) (projectId projectName : String) (t : String) :
    Board × Workspace :=
  match loadBoard ws with
  | some existing => (existing, ws)
  | none =>
    let board : Board :=
      { id := sanitizeId projectId,
        name := projectName,
        projectId := sanitizeId projectId,
        projectName := projectName,
        columns := DEFAULT_BOARD_COLUMNS,
        settings := { DEFAULT_BOARD_SETTINGS with
          ticketPref := String.mk ((sanitizeId projectId).data.take 4) },
        createdAt := t,
        updatedAt := t }
    (board, saveBoard ws board)

/-- `loadTicket`: `null` when the file is absent or parses to nothing;
otherwise the migrated record. -/
def loadTicket (ws : Workspace) (ticketId : String) : Option RawTicket :=
  match ws.ticketsDir with
  | none => none
  | some files =>
    match fsLookup files (ticketFileName ticketId) with
    | some (.record r) => some (migrateTicket r)
    | _ => none

/-- `saveTicket`: ensure the directories, then write the ticket file under the
sanitized id. -/
def saveTicket (ws : Workspace) (tk : RawTicket) : Workspace :=
  let ws1 := ensureBoardDir ws
  { ws1 with
    ticketsDir := some (fsWrite (ws1.ticketsDir.getD []) (ticketFileName (tk.id.getD ""))
      (.record tk)) }

/-- `deleteTicket`: unlink the ticket file, reporting whether it existed. -/
def deleteTicket (ws : Workspace) (ticketId : String) : Bool × Workspace :=
  match ws.ticketsDir with
  | none => (false, ws)
  | some files =>
    if (fsLookup files (ticketFileName ticketId)).isSome then
      (true, { ws with ticketsDir := some (fsDelete files (ticketFileName ticketId)) })
    else (false, ws)

/-- Loop body of `listTickets`: decode each file, keeping records with a
truthy `id` and skipping everything else. -/
def listTicketsLoop : List (String × TicketFile) → List RawTicket
  | [] => []
  | (_, .corrupt) :: rest => listTicketsLoop rest
  | (_, .record r) :: rest =>
    if strTruthy r.id then migrateTicket r :: listTicketsLoop rest else listTicketsLoop rest

/-- `listTickets`: empty when the tickets directory is absent; otherwise
decode the `.yaml` entries, skipping failures. -/
def listTickets (ws : Workspace) : List RawTicket :=
  match ws.ticketsDir with
  | none => []
  | some files => listTicketsLoop (files.filter (fun f => strEndsWith f.1 ".yaml"))

/-- Typed failure cases of the lifecycle operations. -/
inductive BoardErr where
  | boardNotInitialized : BoardErr
  | ticketNotFound : String → BoardErr
  | wipLimitReached : String → Nat → Int → BoardErr
deriving DecidableEq, Repr

deriving instance DecidableEq for Except

/-- Decimal digits of a natural number, least significant first; the first
argument is recursion fuel (any value at least `n` gives the digits). -/
def natDigitsRevFuel : Nat → Nat → List Char
  | _, 0 => []
  | 0, _ + 1 => []
  | fuel + 1, n + 1 => Nat.digitChar ((n + 1) % 10) :: natDigitsRevFuel fuel ((n + 1) / 10)

/-- Decimal digits of a natural number, least significant first. -/
def natDigitsRev (n : Nat) : List Char := natDigitsRevFuel n n

/-- Decimal rendering of a natural number (JavaScript `String(n)` for a
nonnegative integer). -/
def natRepr (n : Nat) : String :=
  if n = 0 then "0" else String.mk (natDigitsRev n).reverse

/-- `String(n).padStart(3, "0")`. -/
def padStart3 (n : Nat) : String :=
  let s := natRepr n
  if s.length < 3 then String.mk (List.replicate (3 - s.length) '0') ++ s else s

/-- Generated ticket id: prefix, hyphen, zero-padded counter. -/
def fmtTicketId (pre : String) (n : Nat) : String := pre ++ "-" ++ padStart3 n

/-- Input to `createTicket` (`TicketCreateInput` in types.ts). -/
structure TicketCreateInput where
  title : String
  type : Option String := none
  intent : Option String := none
  acceptanceSignal : Option String := none
deriving DecidableEq, Repr

/-- Ticket record built by `createTicket`. -/
def mkCreatedTicket (ticketId : String) (input : TicketCreateInput) (t : String) : RawTicket :=
  { id := some ticketId,
    title := some input.title,
    type := some (input.type.getD "feature"),
    status := some "backlog",
    intent := input.intent,
    acceptanceSignal := input.acceptanceSignal,
    comments := some [],
    createdAt := some t,
    updatedAt := some t,
    statusChangedAt := some t }

/-- `createTicket`: allocate the next id from the board counter, persist the
incremented counter, then persist the new backlog ticket. -/
def createTicket (ws : Workspace) (input : TicketCreateInput) (t : String) :
    Except BoardErr RawTicket × Workspace :=
  match loadBoard ws with
  | none => (.error .boardNotInitialized, ws)
  | some board =>
    let ticketId :=
      fmtTicketId board.settings.ticketPref board.settings.nextTicketNumber
    let board' :=
      { board with
        settings :=
          { board.settings with nextTicketNumber := board.settings.nextTicketNumber + 1 },
        updatedAt := t }
    let ticket := mkCreatedTicket ticketId input t
    (.ok ticket, saveTicket (saveBoard ws board') ticket)

/-- Input to `updateTicket` (`TicketUpdateInput` in types.ts: every ticket
field except `id`, `createdAt` and `createdBy`, all optional). -/
structure TicketUpdateInput where
  title : Option String := none
  type : Option String := none
  status : Option String := none
  priority : Option String := none
  intent : Option String := none
  acceptanceSignal : Option String := none
  comments : Option (List Comment) := none
  codeLocation : Option CodeLocation := none
  updatedAt : Option String := none
  statusChangedAt : Option String := none
  completedAt : Option String := none
deriving DecidableEq, Repr

/-- Merged record built by `updateTicket`: spread the patch over the ticket,
then force `id`, `status` and `createdAt` back to the stored values and
refresh `updatedAt`. -/
def mergedTicket (ticket : RawTicket) (input : TicketUpdateInput) (t : String) : RawTicket :=
  { ticket with
    title := input.title <|> ticket.title,
    type := input.type <|> ticket.type,
    priority := input.priority <|> ticket.priority,
    intent := input.intent <|> ticket.intent,
    acceptanceSignal := input.acceptanceSignal <|> ticket.acceptanceSignal,
    comments := input.comments <|> ticket.comments,
    codeLocation := input.codeLocation <|> ticket.codeLocation,
    statusChangedAt := input.statusChangedAt <|> ticket.statusChangedAt,
    completedAt := input.completedAt <|> ticket.completedAt,
    updatedAt := some t }

/-- `updateTicket`: load, merge the patch, persist. -/
def updateTicket (ws : Workspace) (ticketId : String) (input : TicketUpdateInput) (t : String) :
    Except BoardErr RawTicket × Workspace :=
  match loadTicket ws ticketId with
  | none => (.error (.ticketNotFound ticketId), ws)
  | some ticket =>
    let updated := mergedTicket ticket input t
    (.ok updated, saveTicket ws updated)

/-- Count of tickets currently in the target column, excluding the ticket
being moved. -/
def inColumnCount (ws : Workspace) (ticketId toStatus : String) : Nat :=
  ((listTickets ws).filter
    (fun tk => tk.status == some toStatus && tk.id != some ticketId)).length

/-- WIP check of `moveTicket`: when the target column exists and its limit is
truthy (non-null and nonzero), fail with the current count and the limit if
the count is at or over the limit. -/
def wipCheck (ws : Workspace) (board : Board) (ticketId toStatus : String) :
    Option (Nat × Int) :=
  match (board.columns.find? (fun c => c.id == toStatus)).bind (fun c => c.wipLimit) with
  | none => none
  | some w =>
    if w = 0 then none
    else if (inColumnCount ws ticketId toStatus : Int) ≥ w then
      some (inColumnCount ws ticketId toStatus, w)
    else none

/-- Updated record built by a successful `moveTicket`: append the optional
note as a system comment, derive the code location on a first move into
in-progress, stamp the timestamps, stamp `completedAt` on a move into done. -/
def moveUpdated (ticket : RawTicket) (toStatus : String) (note : Option String) (t : String) :
    RawTicket :=
  let baseComments := ticket.comments.getD []
  let comments :=
    if strTruthy note then
      baseComments ++
        [{ author := "system",
           text := "Moved to " ++ toStatus ++ ": " ++ note.getD "",
           createdAt := some t }]
    else baseComments
  let codeLocation :=
    if toStatus = "in-progress" ∧ ticket.codeLocation = none then
      some (deriveCodeLocation (ticket.id.getD "") (ticket.title.getD ""))
    else ticket.codeLocation
  { ticket with
    status := some toStatus,
    updatedAt := some t,
    statusChangedAt := some t,
    completedAt := if toStatus = "done" then some t else ticket.completedAt,
    comments := some comments,
    codeLocation := codeLocation }

/-- `moveTicket`: fail when the ticket or the board is absent, enforce the
WIP limit, then persist the updated record. -/
def moveTicket (ws : Workspace) (ticketId toStatus : String) (note : Option String)
    (t : String) : Except BoardErr RawTicket × Workspace :=
  match loadTicket ws ticketId with
  | none => (.error (.ticketNotFound ticketId), ws)
  | some ticket =>
    match loadBoard ws with
    | none => (.error .boardNotInitialized, ws)
    | some board =>
      match wipCheck ws board ticketId toStatus with
      | some (cnt, w) => (.error (.wipLimitReached toStatus cnt w), ws)
      | none =>
        let updated := moveUpdated ticket toStatus note t
        (.ok updated, saveTicket ws updated)

/-- `addComment`: append a comment and persist. -/
def addComment (ws : Workspace) (ticketId author text : String) (t : String) :
    Except BoardErr RawTicket × Workspace :=
  match loadTicket ws ticketId with
  | none => (.error (.ticketNotFound ticketId), ws)
  | some ticket =>
    let updated :=
      { ticket with
        comments := some (ticket.comments.getD [] ++
          [{ author := author, text := text, createdAt := some t }]),
        updatedAt := some t }
    (.ok updated, saveTicket ws updated)

/-- Single-entry decoder used by `listTickets`: a record with a truthy id
decodes to its migrated form, anything else is skipped. -/
def decodeEntry (f : String × TicketFile) : Option RawTicket :=
  match f.2 with
  | .corrupt => none
  | .record r => if strTruthy r.id then some (migrateTicket r) else none

/-- Current-schema record: no old-schema field is present, the type is not an
old type name, and the status is not the old `"blocked"` status. -/
def isCurrentSchema (r : RawTicket) : Prop :=
  r.description = none ∧ r.acceptanceCriteria = none ∧ r.progressNotes = none ∧
  r.rejectionCount = none ∧ r.researchNotes = none ∧ r.estimate = none ∧
  r.parentId = none ∧ r.labels = none ∧ r.tags = none ∧ r.blockedBy = none ∧
  r.assignee = none ∧ r.staleAt = none ∧
  r.type.bind TYPE_MIGRATION = none ∧ r.status ≠ some "blocked"

instance (r : RawTicket) : Decidable (isCurrentSchema r) := by
  unfold isCurrentSchema; infer_instance

/-- One public mutating operation of the storage layer. -/
inductive BoardOp where
  | create : TicketCreateInput → String → BoardOp
  | update : String → TicketUpdateInput → String → BoardOp
  | move : String → String → Option String → String → BoardOp
  | comment : String → String → String → String → BoardOp
  | delete : String → BoardOp

/-- State effect of one operation. -/
def applyOp (ws : Workspace) : BoardOp → Workspace
  | .create input t => (createTicket ws input t).2
  | .update ticketId input t => (updateTicket ws ticketId input t).2
  | .move ticketId toStatus note t => (moveTicket ws ticketId toStatus note t).2
  | .comment ticketId author text t => (addComment ws ticketId author text t).2
  | .delete ticketId => (deleteTicket ws ticketId).2

/-- Whether an operation is a `createTicket` call. -/
def isCreate : BoardOp → Bool
  | .create _ _ => true
  | _ => false

/-- Ids handed out by one operation (empty unless a create succeeds). -/
def createdHere (ws : Workspace) : BoardOp → List String
  | .create input t =>
    match (createTicket ws input t).1 with
    | .ok tk => [tk.id.getD ""]
    | .error _ => []
  | _ => []

/-- Ids handed out by a whole operation sequence, in order. -/
def createdIds : Workspace → List BoardOp → List String
  | _, [] => []
  | ws, op :: rest => createdHere ws op ++ createdIds (applyOp ws op) rest

/-- Number of create operations in a sequence. -/
def numCreates (ops : List BoardOp) : Nat := ops.countP isCreate

/-- Decimal value of a digit string (leading zeros do not change it). -/
def decodeDigits (l : List Char) : Nat :=
  l.foldl (fun acc c => acc * 10 + (c.toNat - 48)) 0

/-- Sample board used by concrete witnesses: default columns, prefix PROJ. -/
def bSample : Board :=
  { id := "PROJ",
    name := "Proj",
    projectId := "PROJ",
    projectName := "Proj",
    columns := DEFAULT_BOARD_COLUMNS,
    settings := { DEFAULT_BOARD_SETTINGS with ticketPref := "PROJ" },
    createdAt := "2025-01-01T00:00:00Z",
    updatedAt := "2025-01-01T00:00:00Z" }

/-- Sample current-schema ticket used by concrete witnesses. -/
def tkSample : RawTicket :=
  { id := some "T-001",
    title := some "Fix bug",
    type := some "feature",
    status := some "backlog",
    comments := some [],
    createdAt := some "2025-01-01T00:00:00Z",
    updatedAt := some "2025-01-01T00:00:00Z",
    statusChangedAt := some "2025-01-01T00:00:00Z" }

/-- Sample workspace: the sample board plus the sample ticket on file. -/
def wsSample : Workspace :=
  { boardFile := some (.record bSample),
    ticketsDir := some [("T-001.yaml", .record tkSample)] }

/-- Board whose ready column carries a WIP limit of 0 (legal in the board
file: `wipLimit` is `number | null`). -/
def boardZeroWip : Board :=
  { bSample with
    columns :=
      [ { id := "backlog", name := "Backlog", wipLimit := none },
        { id := "ready", name := "Ready", wipLimit := some 0 } ] }

/-- Workspace holding `boardZeroWip` and the sample ticket. -/
def wsZeroWip : Workspace :=
  { boardFile := some (.record boardZeroWip),
    ticketsDir := some [("T-001.yaml", .record tkSample)] }

/-- Ticket that already carries a completion timestamp. -/
def tkCompleted : RawTicket := { tkSample with completedAt := some "2024-01-01T00:00:00Z" }

/-- Workspace holding the already-completed ticket. -/
def wsCompleted : Workspace :=
  { boardFile := some (.record bSample),
    ticketsDir := some [("T-001.yaml", .record tkCompleted)] }

/-- Old-schema ticket record stored with the obsolete refinement status. -/
def tkRefinement : RawTicket :=
  { id := some "T-001",
    title := some "Old item",
    type := some "story",
    status := some "refinement",
    createdAt := some "2024-01-01T00:00:00Z",
    updatedAt := some "2024-01-01T00:00:00Z" }

/-- Workspace holding the refinement-status record under the default board. -/
def wsRefinement : Workspace :=
  { boardFile := some (.record bSample),
    ticketsDir := some [("T-001.yaml", .record tkRefinement)] }

/-- Old-schema record matching the spec's migration example: old bug type,
old blocked status, a description. -/
def rawOldSample : RawTicket :=
  { id := some "T-001",
    title := some "Fix the bug",
    type := some "bug",
    status := some "blocked",
    description := some "Something is broken",
    createdAt := some "2024-01-01T00:00:00Z",
    updatedAt := some "2024-01-02T00:00:00Z" }

/-- Workspace holding the old-schema record. -/
def wsOldSchema : Workspace :=
  { boardFile := some (.record bSample),
    ticketsDir := some [("T-001.yaml", .record rawOldSample)] }

/-- Sample operation sequence: two creates with a delete in between. -/
def opsSample : List BoardOp :=
  [ .create { title := "First" } "2025-01-02T00:00:00Z",
    .delete "PROJ-001",
    .create { title := "Second" } "2025-01-03T00:00:00Z" ]

/-! Helper lemmas. -/

theorem fsLookup_fsWrite_self (files : List (String × TicketFile)) (name : String)
    (c : TicketFile) : fsLookup (fsWrite files name c) name = some c := by
  induction files with
  | nil => simp [fsWrite, fsLookup]
  | cons f rest ih =>
    obtain ⟨n, c0⟩ := f
    by_cases h : n = name
    · simp [fsWrite, fsLookup, h]
    · simp [fsWrite, fsLookup, h, ih]

theorem boardFile_saveTicket (ws : Workspace) (tk : RawTicket) :
    (saveTicket ws tk).boardFile = ws.boardFile := rfl

theorem loadBoard_congr (ws1 ws2 : Workspace) (h : ws1.boardFile = ws2.boardFile) :
    loadBoard ws1 = loadBoard ws2 := by
  unfold loadBoard; rw [h]

theorem boardFile_updateTicket (ws : Workspace) (ticketId : String)
    (input : TicketUpdateInput) (t : String) :
    ((updateTicket ws ticketId input t).2).boardFile = ws.boardFile := by
  cases h : loadTicket ws ticketId <;> simp [updateTicket, h, boardFile_saveTicket]

theorem boardFile_moveTicket (ws : Workspace) (ticketId toStatus : String)
    (note : Option String) (t : String) :
    ((moveTicket ws ticketId toStatus note t).2).boardFile = ws.boardFile := by
  cases h1 : loadTicket ws ticketId with
  | none => simp [moveTicket, h1]
  | some ticket =>
    cases h2 : loadBoard ws with
    | none => simp [moveTicket, h1, h2]
    | some board =>
      cases h3 : wipCheck ws board ticketId toStatus with
      | none => simp [moveTicket, h1, h2, h3, boardFile_saveTicket]
      | some p => obtain ⟨cnt, w⟩ := p; simp [moveTicket, h1, h2, h3]

theorem boardFile_addComment (ws : Workspace) (ticketId author text t : String) :
    ((addComment ws ticketId author text t).2).boardFile = ws.boardFile := by
  cases h : loadTicket ws ticketId <;> simp [addComment, h, boardFile_saveTicket]

theorem boardFile_deleteTicket (ws : Workspace) (ticketId : String) :
    ((deleteTicket ws ticketId).2).boardFile = ws.boardFile := by
  cases h : ws.ticketsDir with
  | none => simp [deleteTicket, h]
  | some files =>
    by_cases h2 : (fsLookup files (ticketFileName ticketId)).isSome <;>
      simp [deleteTicket, h, h2]

theorem TYPE_MIGRATION_target (s m : String) (h : TYPE_MIGRATION s = some m) :
    TYPE_MIGRATION m = none := by
  unfold TYPE_MIGRATION at h
  split at h <;> simp_all <;> subst h <;> rfl

theorem migrateType_idem (ty : Option String) :
    migrateType (migrateType ty) = migrateType ty := by
  cases ty with
  | none => rfl
  | some s =>
    cases h : TYPE_MIGRATION s with
    | none => simp [migrateType, h]
    | some m => simp [migrateType, h, TYPE_MIGRATION_target s m h]

theorem migrateStatus_idem (st : Option String) :
    migrateStatus (migrateStatus st) = migrateStatus st := by
  unfold migrateStatus
  split <;> simp_all

theorem migrateTicket_idem (r : RawTicket) :
    migrateTicket (migrateTicket r) = migrateTicket r := by
  cases r
  simp [migrateTicket, migrateType_idem, migrateStatus_idem, migrateIntent,
    migrateSignal, migrateComments, strTruthy]

theorem migrateTicket_current (r : RawTicket) (h : isCurrentSchema r) :
    migrateTicket r = r := by
  obtain ⟨h1, h2, h3, h4, h5, h6, h7, h8, h9, h10, h11, h12, h13, h14⟩ := h
  have hty : migrateType r.type = r.type := by unfold migrateType; rw [h13]
  have hst : migrateStatus r.status = r.status := by unfold migrateStatus; simp [h14]
  cases r
  simp_all [migrateTicket, migrateIntent, migrateSignal, migrateComments, strTruthy]

theorem digitChar_toNat (d : Nat) (h : d < 10) : (Nat.digitChar d).toNat - 48 = d := by
  interval_cases d <;> rfl

theorem foldr_natDigitsRevFuel (fuel : Nat) : ∀ n : Nat, n ≤ fuel →
    List.foldr (fun c acc => acc * 10 + (c.toNat - 48)) 0 (natDigitsRevFuel fuel n) = n := by
  induction fuel with
  | zero =>
    intro n hn
    interval_cases n
    rfl
  | succ fuel ih =>
    intro n hn
    match n with
    | 0 => rfl
    | m + 1 =>
      rw [natDigitsRevFuel, List.foldr_cons,
        ih ((m + 1) / 10) (by
          have := Nat.div_lt_self (Nat.succ_pos m) (by decide : 1 < 10)
          omega),
        digitChar_toNat ((m + 1) % 10) (Nat.mod_lt _ (by decide))]
      omega

theorem foldr_natDigitsRev (n : Nat) :
    List.foldr (fun c acc => acc * 10 + (c.toNat - 48)) 0 (natDigitsRev n) = n :=
  foldr_natDigitsRevFuel n n (Nat.le_refl n)

theorem decodeDigits_natRepr (n : Nat) : decodeDigits (natRepr n).data = n := by
  unfold natRepr
  by_cases h : n = 0
  · simp [h, decodeDigits]
  · simp only [h, ite_false]
    show List.foldl _ 0 (natDigitsRev n).reverse = n
    rw [List.foldl_reverse]
    exact foldr_natDigitsRev n

theorem foldl_zeros (k : Nat) :
    List.foldl (fun acc c => acc * 10 + (c.toNat - 48)) 0 (List.replicate k '0') = 0 := by
  induction k with
  | zero => rfl
  | succ k ih => simp [List.replicate_succ, List.foldl_cons]; exact ih

theorem decodeDigits_padStart3 (n : Nat) : decodeDigits (padStart3 n).data = n := by
  simp only [padStart3]
  split
  · show decodeDigits (String.mk (List.replicate _ '0') ++ natRepr n).data = n
    rw [String.data_append]
    show List.foldl _ 0 (List.replicate _ '0' ++ (natRepr n).data) = n
    rw [List.foldl_append, foldl_zeros]
    exact decodeDigits_natRepr n
  · exact decodeDigits_natRepr n

theorem padStart3_inj : Function.Injective padStart3 := by
  intro a b h
  have := congrArg (fun s => decodeDigits s.data) h
  simpa [decodeDigits_padStart3] using this

theorem fmtTicketId_inj (pre : String) : Function.Injective (fmtTicketId pre) := by
  intro a b h
  have hd := congrArg String.data h
  simp only [fmtTicketId, String.data_append, List.append_assoc] at hd
  have hd2 := List.append_cancel_left (List.append_cancel_left hd)
  apply padStart3_inj
  have : padStart3 a = ⟨(padStart3 a).data⟩ := rfl
  rw [this, hd2]

theorem listTicketsLoop_eq_filterMap (files : List (String × TicketFile)) :
    listTicketsLoop files = files.filterMap decodeEntry := by
  induction files with
  | nil => rfl
  | cons f rest ih =>
    obtain ⟨n, c⟩ := f
    cases c with
    | corrupt => simp [listTicketsLoop, decodeEntry, ih]
    | record r =>
      by_cases h : strTruthy r.id <;>
        simp [listTicketsLoop, decodeEntry, h, ih]

/-! Claim theorems. -/

/-- C5: initBoard is idempotent: when a board record is already stored, a
second initBoard call with any (possibly different) projectId and projectName
returns the stored board and leaves the workspace, in particular the stored
board file, unchanged. -/
theorem initBoard_idem (ws : Workspace) (b : Board) (projectId projectName t : String)
    (h : ws.boardFile = some (.record b)) :
    initBoard ws projectId projectName t = (b, ws) := by
  simp [initBoard, loadBoard, h]

theorem initBoard_idem_witness :
    initBoard wsSample "other-project" "Other Name" "2025-02-01T00:00:00Z" =
      (bSample, wsSample) :=
  initBoard_idem wsSample bSample "other-project" "Other Name" "2025-02-01T00:00:00Z"
    (by decide)

/-- C10: moveTicket is atomic on failure: whenever it returns an error
(ticket not found, board not initialized, or WIP capacity exceeded), the
resulting workspace state — the stored board and every stored ticket — is
exactly the state before the call. -/
theorem moveTicket_error_preserves_state (ws : Workspace) (ticketId toStatus : String)
    (note : Option String) (t : String) (e : BoardErr)
    (h : (moveTicket ws ticketId toStatus note t).1 = .error e) :
    (moveTicket ws ticketId toStatus note t).2 = ws := by
  cases h1 : loadTicket ws ticketId with
  | none => simp [moveTicket, h1]
  | some ticket =>
    cases h2 : loadBoard ws with
    | none => simp [moveTicket, h1, h2]
    | some board =>
      cases h3 : wipCheck ws board ticketId toStatus with
      | some p => obtain ⟨cnt, w⟩ := p; simp [moveTicket, h1, h2, h3]
      | none => simp [moveTicket, h1, h2, h3] at h

theorem moveTicket_error_preserves_state_witness :
    (moveTicket { boardFile := some (.record bSample), ticketsDir := some [] } "T-404"
      "ready" none "2025-01-02T00:00:00Z").2 =
      { boardFile := some (.record bSample), ticketsDir := some [] } :=
  moveTicket_error_preserves_state
    { boardFile := some (.record bSample), ticketsDir := some [] } "T-404" "ready" none
    "2025-01-02T00:00:00Z" (.ticketNotFound "T-404") (by decide)

/-- C2 counterexample: a ticket stored with an existing completedAt, moved
into done again, comes back with completedAt overwritten by the new move
timestamp — the claim that an existing value is never overwritten fails. -/
theorem moveTicket_completedAt_overwritten :
    (loadTicket wsCompleted "T-001").map (fun tk => tk.completedAt) =
      some (some "2024-01-01T00:00:00Z") ∧
    ∃ tk', (moveTicket wsCompleted "T-001" "done" none "2025-06-01T00:00:00Z").1 = .ok tk' ∧
      tk'.completedAt = some "2025-06-01T00:00:00Z" ∧
      tk'.completedAt ≠ some "2024-01-01T00:00:00Z" :=
  ⟨by decide,
    moveUpdated (migrateTicket tkCompleted) "done" none "2025-06-01T00:00:00Z",
    by decide, by decide, by decide⟩

/-- C2 (amended): moveTicket stamps completedAt with the move timestamp on
every move into the terminal done column, overwriting any existing value;
a move to any other status leaves completedAt unchanged. -/
theorem moveTicket_completedAt_spec (ws : Workspace) (ticketId toStatus : String)
    (note : Option String) (t : String) (tk tk' : RawTicket)
    (hload : loadTicket ws ticketId = some tk)
    (h : (moveTicket ws ticketId toStatus note t).1 = .ok tk') :
    tk'.completedAt = if toStatus = "done" then some t else tk.completedAt := by
  cases h2 : loadBoard ws with
  | none => simp [moveTicket, hload, h2] at h
  | some board =>
    cases h3 : wipCheck ws board ticketId toStatus with
    | some p => obtain ⟨cnt, w⟩ := p; simp [moveTicket, hload, h2, h3] at h
    | none =>
      simp [moveTicket, hload, h2, h3] at h
      subst h
      simp [moveUpdated]

theorem moveTicket_completedAt_spec_witness :
    (moveUpdated (migrateTicket tkSample) "ready" none "2025-01-02T00:00:00Z").completedAt =
      if ("ready" : String) = "done" then some "2025-01-02T00:00:00Z"
      else (migrateTicket tkSample).completedAt :=
  moveTicket_completedAt_spec wsSample "T-001" "ready" none "2025-01-02T00:00:00Z"
    (migrateTicket tkSample)
    (moveUpdated (migrateTicket tkSample) "ready" none "2025-01-02T00:00:00Z")
    (by decide) (by decide)

/-- C7: the first move of a ticket into in-progress when it has no code
location assigns the one derived deterministically from its id and slugified
title; any successful move of a ticket that already has a code location
leaves it unchanged; and the derived branch is
story/ less-than-id-lowercased greater-than hyphen slug. -/
theorem moveTicket_codeLocation_spec :
    (∀ (ws : Workspace) (ticketId : String) (note : Option String) (t : String)
       (tk tk' : RawTicket),
      loadTicket ws ticketId = some tk → tk.codeLocation = none →
      (moveTicket ws ticketId "in-progress" note t).1 = .ok tk' →
      tk'.codeLocation =
        some (deriveCodeLocation (tk.id.getD "") (tk.title.getD ""))) ∧
    (∀ (ws : Workspace) (ticketId toStatus : String) (note : Option String) (t : String)
       (tk tk' : RawTicket) (loc : CodeLocation),
      loadTicket ws ticketId = some tk → tk.codeLocation = some loc →
      (moveTicket ws ticketId toStatus note t).1 = .ok tk' →
      tk'.codeLocation = some loc) ∧
    (∀ ticketId title : String,
      (deriveCodeLocation ticketId title).branch =
        "story/" ++ strLower ticketId ++ "-" ++ slugify title) := by
  refine ⟨?_, ?_, fun _ _ => rfl⟩
  · intro ws ticketId note t tk tk' hload hnone h
    cases h2 : loadBoard ws with
    | none => simp [moveTicket, hload, h2] at h
    | some board =>
      cases h3 : wipCheck ws board ticketId "in-progress" with
      | some p => obtain ⟨cnt, w⟩ := p; simp [moveTicket, hload, h2, h3] at h
      | none =>
        simp [moveTicket, hload, h2, h3] at h
        subst h
        simp [moveUpdated, hnone]
  · intro ws ticketId toStatus note t tk tk' loc hload hsome h
    cases h2 : loadBoard ws with
    | none => simp [moveTicket, hload, h2] at h
    | some board =>
      cases h3 : wipCheck ws board ticketId toStatus with
      | some p => obtain ⟨cnt, w⟩ := p; simp [moveTicket, hload, h2, h3] at h
      | none =>
        simp [moveTicket, hload, h2, h3] at h
        subst h
        simp [moveUpdated, hsome]

theorem moveTicket_codeLocation_spec_witness :
    (moveUpdated (migrateTicket tkSample) "in-progress" none
      "2025-01-02T00:00:00Z").codeLocation =
      some (deriveCodeLocation ((migrateTicket tkSample).id.getD "")
        ((migrateTicket tkSample).title.getD "")) :=
  moveTicket_codeLocation_spec.1 wsSample "T-001" none "2025-01-02T00:00:00Z"
    (migrateTicket tkSample)
    (moveUpdated (migrateTicket tkSample) "in-progress" none "2025-01-02T00:00:00Z")
    (by decide) (by decide) (by decide)

/-- C8: updateTicket returns (and persists) a ticket whose id, status,
createdAt (and createdBy) equal the stored ticket's values regardless of the
patch, whose updatedAt is the update timestamp, and whose remaining fields
come from the patch where supplied and are otherwise unchanged. -/
theorem updateTicket_frame (ws : Workspace) (ticketId : String) (input : TicketUpdateInput)
    (t : String) (tk tk' : RawTicket)
    (hload : loadTicket ws ticketId = some tk)
    (h : (updateTicket ws ticketId input t).1 = .ok tk') :
    tk'.id = tk.id ∧ tk'.status = tk.status ∧ tk'.createdAt = tk.createdAt ∧
    tk'.createdBy = tk.createdBy ∧ tk'.updatedAt = some t ∧
    tk'.title = (input.title <|> tk.title) ∧
    tk'.type = (input.type <|> tk.type) ∧
    tk'.priority = (input.priority <|> tk.priority) ∧
    tk'.intent = (input.intent <|> tk.intent) ∧
    tk'.acceptanceSignal = (input.acceptanceSignal <|> tk.acceptanceSignal) ∧
    tk'.comments = (input.comments <|> tk.comments) ∧
    tk'.codeLocation = (input.codeLocation <|> tk.codeLocation) ∧
    tk'.statusChangedAt = (input.statusChangedAt <|> tk.statusChangedAt) ∧
    tk'.completedAt = (input.completedAt <|> tk.completedAt) ∧
    (updateTicket ws ticketId input t).2 = saveTicket ws tk' := by
  simp only [updateTicket, hload, Except.ok.injEq] at h
  subst h
  simp [updateTicket, hload, mergedTicket]

theorem updateTicket_frame_witness :
    (mergedTicket (migrateTicket tkSample) { title := some "New title" }
      "2025-01-02T00:00:00Z").status = (migrateTicket tkSample).status :=
  (updateTicket_frame wsSample "T-001" { title := some "New title" } "2025-01-02T00:00:00Z"
    (migrateTicket tkSample)
    (mergedTicket (migrateTicket tkSample) { title := some "New title" }
      "2025-01-02T00:00:00Z")
    (by decide) (by decide)).2.1

/-- C9: listTickets returns the empty list when the tickets directory is
absent; when present it returns exactly the decoded `.yaml` entries, and
inserting an entry that fails to decode or lacks a truthy id anywhere in the
directory leaves the result unchanged — one corrupt file never aborts the
enumeration of the rest. -/
theorem listTickets_fault_tolerant :
    (∀ ws : Workspace, ws.ticketsDir = none → listTickets ws = []) ∧
    (∀ (bf : Option BoardFile) (files : List (String × TicketFile)),
      listTickets { boardFile := bf, ticketsDir := some files } =
        (files.filter (fun f => strEndsWith f.1 ".yaml")).filterMap decodeEntry) ∧
    (∀ (bf : Option BoardFile) (pre post : List (String × TicketFile))
       (name : String) (c : TicketFile),
      decodeEntry (name, c) = none →
      listTickets { boardFile := bf, ticketsDir := some (pre ++ (name, c) :: post) } =
        listTickets { boardFile := bf, ticketsDir := some (pre ++ post) }) := by
  refine ⟨?_, ?_, ?_⟩
  · intro ws h; simp [listTickets, h]
  · intro bf files; simp [listTickets, listTicketsLoop_eq_filterMap]
  · intro bf pre post name c hc
    simp only [listTickets, listTicketsLoop_eq_filterMap, List.filter_append,
      List.filter_cons, List.filterMap_append]
    by_cases hy : strEndsWith name ".yaml" <;> simp [hy, hc]

theorem listTickets_fault_tolerant_witness :
    listTickets { boardFile := none, ticketsDir := none } = [] :=
  listTickets_fault_tolerant.1 { boardFile := none, ticketsDir := none } rfl

/-- C4: loading the stored old-schema record (old bug type, old blocked
status, a description) yields the normalized ticket with bugfix type, backlog
status, intent copied from the description and no description field;
migration is idempotent on every raw record; re-saving a normalized ticket
and loading it again returns it unchanged; and a current-schema record is a
fixed point of migration (migration never fails on it). -/
theorem migrateTicket_spec :
    ((loadTicket wsOldSchema "T-001").map
        (fun tk => (tk.type, tk.status, tk.intent, tk.description)) =
      some (some "bugfix", some "backlog", some "Something is broken", none)) ∧
    (∀ r : RawTicket, migrateTicket (migrateTicket r) = migrateTicket r) ∧
    (∀ (ws : Workspace) (r : RawTicket),
      loadTicket (saveTicket ws (migrateTicket r)) ((migrateTicket r).id.getD "") =
        some (migrateTicket r)) ∧
    (∀ r : RawTicket, isCurrentSchema r → migrateTicket r = r) := by
  refine ⟨by decide, migrateTicket_idem, ?_, migrateTicket_current⟩
  intro ws r
  simp [loadTicket, saveTicket, ensureBoardDir, fsLookup_fsWrite_self, migrateTicket_idem]

theorem migrateTicket_spec_witness :
    migrateTicket tkSample = tkSample :=
  migrateTicket_spec.2.2.2 tkSample (by decide)

/-- C1 counterexample: in wsZeroWip the ready column carries the non-null WIP
limit 0 and currently holds 0 other tickets (a count at the limit), so the
claim demands a capacity failure; the code treats a zero limit as falsy,
skips the check, and the move succeeds. -/
theorem moveTicket_wip_zero_not_enforced :
    (loadBoard wsZeroWip).map (fun b => b.columns.find? (fun c => c.id == "ready")) =
      some (some { id := "ready", name := "Ready", wipLimit := some 0 }) ∧
    inColumnCount wsZeroWip "T-001" "ready" = 0 ∧
    ∃ tk', (moveTicket wsZeroWip "T-001" "ready" none "2025-01-02T00:00:00Z").1 = .ok tk' :=
  ⟨by decide, by decide,
    moveUpdated (migrateTicket tkSample) "ready" none "2025-01-02T00:00:00Z", by decide⟩

/-- C1 (amended): for a target column whose WIP limit is non-null and nonzero,
moveTicket fails with a capacity error exactly when the number of tickets in
that column, excluding the ticket being moved, is at or over the limit; below
the limit the move succeeds and stamps statusChangedAt with the move
timestamp.  (A zero — or null — limit disables the check.) -/
theorem moveTicket_wip_spec (ws : Workspace) (b : Board) (col : BoardColumn)
    (tk : RawTicket) (ticketId toStatus : String) (note : Option String) (t : String)
    (w : Int)
    (hload : loadTicket ws ticketId = some tk)
    (hb : loadBoard ws = some b)
    (hcol : b.columns.find? (fun c => c.id == toStatus) = some col)
    (hw : col.wipLimit = some w) (hw0 : w ≠ 0) :
    ((∃ cnt lim, (moveTicket ws ticketId toStatus note t).1 =
        .error (.wipLimitReached toStatus cnt lim)) ↔
      (inColumnCount ws ticketId toStatus : Int) ≥ w) ∧
    ((inColumnCount ws ticketId toStatus : Int) < w →
      ∃ tk', (moveTicket ws ticketId toStatus note t).1 = .ok tk' ∧
        tk'.statusChangedAt = some t) := by
  have hwc : wipCheck ws b ticketId toStatus =
      (if (inColumnCount ws ticketId toStatus : Int) ≥ w then
        some (inColumnCount ws ticketId toStatus, w) else none) := by
    simp [wipCheck, hcol, hw, hw0]
  by_cases hge : (inColumnCount ws ticketId toStatus : Int) ≥ w
  · refine ⟨⟨fun _ => hge, fun _ => ?_⟩, fun hlt => absurd hge (not_le.mpr hlt)⟩
    exact ⟨inColumnCount ws ticketId toStatus, w,
      by simp [moveTicket, hload, hb, hwc, hge]⟩
  · refine ⟨⟨?_, fun hgood => absurd hgood hge⟩, fun _ => ?_⟩
    · rintro ⟨cnt, lim, hcl⟩
      simp [moveTicket, hload, hb, hwc, hge] at hcl
    · exact ⟨moveUpdated tk toStatus note t,
        by simp [moveTicket, hload, hb, hwc, hge], by simp [moveUpdated]⟩

theorem moveTicket_wip_spec_witness :
    ((inColumnCount wsSample "T-001" "ready" : Int) < 10) ∧
    ∃ tk', (moveTicket wsSample "T-001" "ready" none "2025-01-02T00:00:00Z").1 = .ok tk' ∧
      tk'.statusChangedAt = some "2025-01-02T00:00:00Z" :=
  ⟨by decide,
    (moveTicket_wip_spec wsSample bSample
      { id := "ready", name := "Ready", wipLimit := some 10 }
      (migrateTicket tkSample) "T-001" "ready" none "2025-01-02T00:00:00Z" 10
      (by decide) (by decide) (by decide) rfl (by decide)).2 (by decide)⟩

/-- C3 counterexample: the stored old-schema record with status refinement
loads (through migration) with status refinement, which is not one of the
default board's configured column ids — the claimed invariant fails for
tickets reached through loadTicket on arbitrary raw stored records. -/
theorem migrated_status_outside_columns :
    loadBoard wsRefinement = some bSample ∧
    (loadTicket wsRefinement "T-001").map (fun tk => tk.status) =
      some (some "refinement") ∧
    (bSample.columns.map (fun c => c.id)).contains "refinement" = false := by
  exact ⟨by decide, by decide, by decide⟩

/-- C3 (amended): the status invariant holds for tickets produced by the
public operations — createTicket always assigns backlog, a successful
moveTicket assigns its target status, updateTicket and addComment preserve
status, every valid status is a default-board column id — and for records
loaded through migration exactly when the stored status is a current valid
status or the migrated blocked status; other stored statuses pass through
migration unchanged. -/
theorem ticketStatus_spec :
    (∀ s ∈ VALID_STATUSES, s ∈ defaultColumnIds) ∧
    (∀ (ws : Workspace) (input : TicketCreateInput) (t : String) (tk : RawTicket),
      (createTicket ws input t).1 = .ok tk → tk.status = some "backlog") ∧
    (∀ (ws : Workspace) (ticketId toStatus : String) (note : Option String) (t : String)
       (tk : RawTicket),
      (moveTicket ws ticketId toStatus note t).1 = .ok tk → tk.status = some toStatus) ∧
    (∀ (ws : Workspace) (ticketId : String) (input : TicketUpdateInput) (t : String)
       (tk tk' : RawTicket),
      loadTicket ws ticketId = some tk → (updateTicket ws ticketId input t).1 = .ok tk' →
      tk'.status = tk.status) ∧
    (∀ (ws : Workspace) (ticketId author text t : String) (tk tk' : RawTicket),
      loadTicket ws ticketId = some tk → (addComment ws ticketId author text t).1 = .ok tk' →
      tk'.status = tk.status) ∧
    (∀ (r : RawTicket) (s : String), r.status = some s →
      (s ∈ VALID_STATUSES ∨ s = "blocked") →
      ∃ s2, (migrateTicket r).status = some s2 ∧ s2 ∈ VALID_STATUSES) := by
  refine ⟨by decide, ?_, ?_, ?_, ?_, ?_⟩
  · intro ws input t tk h
    cases h1 : loadBoard ws with
    | none => simp [createTicket, h1] at h
    | some board =>
      simp [createTicket, h1] at h
      subst h
      simp [mkCreatedTicket]
  · intro ws ticketId toStatus note t tk h
    cases h1 : loadTicket ws ticketId with
    | none => simp [moveTicket, h1] at h
    | some ticket =>
      cases h2 : loadBoard ws with
      | none => simp [moveTicket, h1, h2] at h
      | some board =>
        cases h3 : wipCheck ws board ticketId toStatus with
        | some p => obtain ⟨cnt, w⟩ := p; simp [moveTicket, h1, h2, h3] at h
        | none =>
          simp [moveTicket, h1, h2, h3] at h
          subst h
          simp [moveUpdated]
  · intro ws ticketId input t tk tk' hload h
    simp only [updateTicket, hload, Except.ok.injEq] at h
    subst h
    simp [mergedTicket]
  · intro ws ticketId author text t tk tk' hload h
    simp only [addComment, hload, Except.ok.injEq] at h
    subst h
    rfl
  · intro r s hs hval
    by_cases hb : s = "blocked"
    · subst hb
      exact ⟨"backlog", by simp [migrateTicket, migrateStatus, hs], by decide⟩
    · have hv : s ∈ VALID_STATUSES := by
        rcases hval with hv | he
        · exact hv
        · exact absurd he hb
      exact ⟨s, by simp [migrateTicket, migrateStatus, hs, hb], hv⟩

theorem ticketStatus_spec_witness :
    (mkCreatedTicket (fmtTicketId "PROJ" 1) { title := "First" }
      "2025-01-02T00:00:00Z").status = some "backlog" :=
  ticketStatus_spec.2.1 wsSample { title := "First" } "2025-01-02T00:00:00Z"
    (mkCreatedTicket (fmtTicketId "PROJ" 1) { title := "First" } "2025-01-02T00:00:00Z")
    (by decide)

theorem createTicket_ok (ws : Workspace) (b : Board) (input : TicketCreateInput)
    (t : String) (h : loadBoard ws = some b) :
    (createTicket ws input t).1 =
      .ok (mkCreatedTicket
        (fmtTicketId b.settings.ticketPref b.settings.nextTicketNumber) input t) := by
  simp [createTicket, h]

theorem loadBoard_applyOp (ws : Workspace) (b : Board) (op : BoardOp)
    (h : loadBoard ws = some b) :
    ∃ b2 : Board, loadBoard (applyOp ws op) = some b2 ∧
      b2.settings.ticketPref = b.settings.ticketPref ∧
      b2.settings.nextTicketNumber =
        b.settings.nextTicketNumber + (if isCreate op then 1 else 0) := by
  cases op with
  | create input t =>
    refine ⟨{ b with
        settings := { b.settings with
          nextTicketNumber := b.settings.nextTicketNumber + 1 },
        updatedAt := t }, ?_, by simp, by simp [isCreate]⟩
    simp only [applyOp, createTicket, h]
    simp [loadBoard, saveTicket, saveBoard, ensureBoardDir]
  | update ticketId input t =>
    refine ⟨b, ?_, rfl, by simp [isCreate]⟩
    rw [show applyOp ws (.update ticketId input t) = (updateTicket ws ticketId input t).2
        from rfl,
      loadBoard_congr _ ws (boardFile_updateTicket ws ticketId input t)]
    exact h
  | move ticketId toStatus note t =>
    refine ⟨b, ?_, rfl, by simp [isCreate]⟩
    rw [show applyOp ws (.move ticketId toStatus note t) =
        (moveTicket ws ticketId toStatus note t).2 from rfl,
      loadBoard_congr _ ws (boardFile_moveTicket ws ticketId toStatus note t)]
    exact h
  | comment ticketId author text t =>
    refine ⟨b, ?_, rfl, by simp [isCreate]⟩
    rw [show applyOp ws (.comment ticketId author text t) =
        (addComment ws ticketId author text t).2 from rfl,
      loadBoard_congr _ ws (boardFile_addComment ws ticketId author text t)]
    exact h
  | delete ticketId =>
    refine ⟨b, ?_, rfl, by simp [isCreate]⟩
    rw [show applyOp ws (.delete ticketId) = (deleteTicket ws ticketId).2 from rfl,
      loadBoard_congr _ ws (boardFile_deleteTicket ws ticketId)]
    exact h

theorem createdIds_spec (ops : List BoardOp) : ∀ (ws : Workspace) (b : Board),
    loadBoard ws = some b →
    createdIds ws ops =
      (List.range' b.settings.nextTicketNumber (numCreates ops)).map
        (fmtTicketId b.settings.ticketPref) := by
  induction ops with
  | nil => intro ws b _; simp [createdIds, numCreates]
  | cons op rest ih =>
    intro ws b h
    obtain ⟨b2, h2, hpre, hnum⟩ := loadBoard_applyOp ws b op h
    have hrest := ih (applyOp ws op) b2 h2
    cases op with
    | create input t =>
      have hcc : createdHere ws (.create input t) =
          [fmtTicketId b.settings.ticketPref b.settings.nextTicketNumber] := by
        simp [createdHere, createTicket_ok ws b input t h, mkCreatedTicket]
      have hnc : numCreates (BoardOp.create input t :: rest) = numCreates rest + 1 := by
        simp [numCreates, List.countP_cons, isCreate]
      rw [createdIds, hcc, hrest, hpre, hnum, hnc, List.range'_succ]
      simp [isCreate]
    | update ticketId input t =>
      have hnc : numCreates (BoardOp.update ticketId input t :: rest) = numCreates rest := by
        simp [numCreates, List.countP_cons, isCreate]
      rw [createdIds, hrest, hpre, hnum, hnc]
      simp [createdHere, isCreate]
    | move ticketId toStatus note t =>
      have hnc : numCreates (BoardOp.move ticketId toStatus note t :: rest) =
          numCreates rest := by
        simp [numCreates, List.countP_cons, isCreate]
      rw [createdIds, hrest, hpre, hnum, hnc]
      simp [createdHere, isCreate]
    | comment ticketId author text t =>
      have hnc : numCreates (BoardOp.comment ticketId author text t :: rest) =
          numCreates rest := by
        simp [numCreates, List.countP_cons, isCreate]
      rw [createdIds, hrest, hpre, hnum, hnc]
      simp [createdHere, isCreate]
    | delete ticketId =>
      have hnc : numCreates (BoardOp.delete ticketId :: rest) = numCreates rest := by
        simp [numCreates, List.countP_cons, isCreate]
      rw [createdIds, hrest, hpre, hnum, hnc]
      simp [createdHere, isCreate]

/-- C6: on a workspace with a stored board, any sequence of operations hands
out create ids that are exactly the board prefix joined by a hyphen to the
three-digit zero-padded consecutive counter values starting at the stored
nextTicketNumber — so the numbers are strictly increasing, the ids are
pairwise distinct, and an id freed by an interleaved delete is never handed
out again. -/
theorem createTicket_id_spec (ws : Workspace) (b : Board) (ops : List BoardOp)
    (h : loadBoard ws = some b) :
    createdIds ws ops =
      (List.range' b.settings.nextTicketNumber (numCreates ops)).map
        (fmtTicketId b.settings.ticketPref) ∧
    (createdIds ws ops).Nodup ∧
    List.Pairwise (fun m n => m < n)
      (List.range' b.settings.nextTicketNumber (numCreates ops)) := by
  have h1 := createdIds_spec ops ws b h
  refine ⟨h1, ?_, List.pairwise_lt_range' _ _⟩
  rw [h1]
  exact (List.nodup_range' _ _).map (fmtTicketId_inj _)

theorem createTicket_id_spec_witness :
    createdIds wsSample opsSample = ["PROJ-001", "PROJ-002"] ∧
    (createdIds wsSample opsSample).Nodup := by
  have h := createTicket_id_spec wsSample bSample opsSample (by decide)
  refine ⟨?_, h.2.1⟩
  rw [h.1]
  decide

end Clawdev
